import Mathlib

set_option maxRecDepth 8192

/-! Shallow embedding of the Bascanka Explorer context-menu handler
(src/Bascanka.Explorer.ContextMenu: BascankaCommand.cpp, ClassFactory.cpp,
dllmain.cpp). HRESULT status codes are modelled as 32-bit unsigned values
(Nat), wide strings as Lean strings, and the per-user configuration key
(HKCU Software Bascanka ContextMenu) as a partial map from value names to
REG_SZ string data. -/

/-- HRESULT: a 32-bit unsigned status code. -/
abbrev HResult := Nat

def S_OK : HResult := 0

def S_FALSE : HResult := 1

def E_NOTIMPL : HResult := 0x80004001

def E_NOINTERFACE : HResult := 0x80004002

def E_POINTER : HResult := 0x80004003

def E_FAIL : HResult := 0x80004005

def E_OUTOFMEMORY : HResult := 0x8007000E

def E_INVALIDARG : HResult := 0x80070057

def CLASS_E_NOAGGREGATION : HResult := 0x80040110

def CLASS_E_CLASSNOTAVAILABLE : HResult := 0x80040111

/-- FAILED macro of winerror.h: the severity bit (bit 31) is set. -/
abbrev FAILED (hr : HResult) : Prop := 0x80000000 ≤ hr

/-- SUCCEEDED macro of winerror.h: the severity bit (bit 31) is clear. -/
abbrev SUCCEEDED (hr : HResult) : Prop := hr < 0x80000000

/-- HRESULT_FROM_WIN32 applied to an unsigned Win32 error code: code 0 maps
to S_OK; any other code keeps its low 16 bits and gains FACILITY_WIN32 (7)
in bits 16-26 and the severity bit 31. The three summands occupy disjoint
bit ranges, so addition coincides with the bitwise or of the macro. -/
def HRESULT_FROM_WIN32 (err : Nat) : HResult :=
  if err = 0 then 0 else err % 65536 + 7 * 65536 + 0x80000000

/-- EXPCMDSTATE value ECS_ENABLED of shobjidl_core.h. -/
def ECS_ENABLED : Nat := 0

/-- EXPCMDFLAGS value ECF_DEFAULT of shobjidl_core.h. -/
def ECF_DEFAULT : Nat := 0

/-- The persisted per-user configuration under HKCU Software Bascanka
ContextMenu. `values n = some s` models a REG_SZ value named n whose string
data s RegQueryValueExW reads successfully into the 1024-wchar buffer;
`values n = none` models a missing key, a missing value, a non-REG_SZ type
or any other failing query, all of which make ReadRegString return the
empty string. -/
structure RegState where
  values : String → Option String

namespace BascankaCommand

/-- BascankaCommand::ReadRegString (BascankaCommand.cpp 174-197): opens the
configuration key and queries one REG_SZ value, returning its string data,
or the empty string when the key cannot be opened, the query fails, or the
value is not REG_SZ. -/
def ReadRegString (reg : RegState) (valueName : String) : String :=
  match reg.values valueName with
  | some s => s
  | none => ""

/-- BascankaCommand::GetTitle (BascankaCommand.cpp 50-58): reads
DisplayName, substitutes the fixed fallback label when it is empty, and
hands the string to the host. SHStrDupW is modelled as succeeding with
S_OK; its out-of-memory failure is not modelled. -/
def GetTitle (reg : RegState) : HResult × Option String :=
  let displayName := ReadRegString reg "DisplayName"
  let displayName := if displayName = "" then "Edit with Bascanka" else displayName
  (S_OK, some displayName)

/-- BascankaCommand::GetIcon (BascankaCommand.cpp 60-80): reads IconPath;
when empty, falls back to ExePath with icon index 0 appended; when that is
also empty, sets the output to null and returns E_NOTIMPL. SHStrDupW is
modelled as succeeding with S_OK. -/
def GetIcon (reg : RegState) : HResult × Option String :=
  let iconPath := ReadRegString reg "IconPath"
  let iconPath :=
    if iconPath = "" then
      let exe := ReadRegString reg "ExePath"
      if exe = "" then exe else exe ++ ",0"
    else iconPath
  if iconPath = "" then (E_NOTIMPL, none) else (S_OK, some iconPath)

/-- Outcome of fetching one selected item inside Invoke's loop:
`fetchFail` models GetItemAt failing or producing a null item
(BascankaCommand.cpp 127-128); `item none` models
GetDisplayName(SIGDN_FILESYSPATH) failing or producing a null path
(131-132); `item (some p)` models a successfully obtained path p. -/
inductive ItemFetch
  | fetchFail
  | item (path : Option String)

/-- IShellItemArray as Invoke observes it: the HRESULT and count produced
by GetCount (BascankaCommand.cpp 116-117), and for each index the outcome
of GetItemAt plus GetDisplayName. -/
structure Selection where
  countHr : HResult
  count : Nat
  items : Nat → ItemFetch

/-- The file-system path an iteration of the loop obtains from one item,
if any. -/
def itemPath : ItemFetch → Option String
  | .fetchFail => none
  | .item p => p

/-- The per-index fetch outcomes for indices 0 to count-1, in loop order. -/
def fetchedPaths (s : Selection) : List (Option String) :=
  (List.range s.count).map fun i => itemPath (s.items i)

/-- One append of a quoted path to the accumulated argument string
(BascankaCommand.cpp 134-139): a single separating space when the
accumulator is non-empty, then the path in double quotes. -/
def appendArg (args p : String) : String :=
  (if args = "" then args else args ++ " ") ++ "\"" ++ p ++ "\""

/-- One loop iteration's effect on the accumulated argument string: items
that fail to yield a path leave it unchanged. -/
def argStep (args : String) : Option String → String
  | none => args
  | some p => appendArg args p

/-- The combined argument string Invoke's loop builds over all selected
items (BascankaCommand.cpp 122-145). -/
def buildArgs (s : Selection) : String :=
  (fetchedPaths s).foldl argStep ""

/-- A ShellExecuteExW request as Invoke fills it in (BascankaCommand.cpp
151-156): the executable (lpFile) and the argument string (lpParameters);
lpVerb open and SW_SHOWNORMAL are fixed and not modelled. -/
structure LaunchReq where
  file : String
  params : String
  deriving DecidableEq

/-- BascankaCommand::Invoke (BascankaCommand.cpp 107-164). `sel = none`
models a null psiItemArray. `launchErr` models the ShellExecuteExW call:
`none` means it returns TRUE, `some err` means it returns FALSE with
GetLastError() = err. The result pairs the returned HRESULT with the list
of launch requests issued during the call. -/
def Invoke (reg : RegState) (sel : Option Selection) (launchErr : Option Nat) :
    HResult × List LaunchReq :=
  match sel with
  | none => (E_INVALIDARG, [])
  | some s =>
    let exePath := ReadRegString reg "ExePath"
    if exePath = "" then (E_FAIL, [])
    else if FAILED s.countHr ∨ s.count = 0 then (s.countHr, [])
    else
      let args := buildArgs s
      if args = "" then (E_FAIL, [])
      else
        match launchErr with
        | none => (S_OK, [⟨exePath, args⟩])
        | some err => (HRESULT_FROM_WIN32 err, [⟨exePath, args⟩])

/-- BascankaCommand::GetState (BascankaCommand.cpp 94-99): always stores
ECS_ENABLED and returns S_OK, ignoring both arguments. -/
def GetState (_psiItemArray : Option Selection) (_fOkToBeSlow : Bool) :
    HResult × Nat :=
  (S_OK, ECS_ENABLED)

/-- BascankaCommand::GetFlags (BascankaCommand.cpp 101-105): always stores
ECF_DEFAULT and returns S_OK. -/
def GetFlags : HResult × Nat :=
  (S_OK, ECF_DEFAULT)

/-- BascankaCommand::GetToolTip (BascankaCommand.cpp 82-86): always stores
null and returns E_NOTIMPL. -/
def GetToolTip : HResult × Option String :=
  (E_NOTIMPL, none)

end BascankaCommand

open BascankaCommand

/-- A string equals the empty string exactly when its character list is
empty. -/
lemma str_eq_empty_iff (s : String) : s = "" ↔ s.data = [] := by
  constructor
  · intro h
    rw [h]
  · exact String.ext

/-- Appending a non-empty string yields a non-empty string. -/
lemma append_ne_empty_right (s t : String) (h : t ≠ "") : s ++ t ≠ "" := by
  rw [Ne, str_eq_empty_iff, String.data_append]
  rw [Ne, str_eq_empty_iff] at h
  simp [h]

/-- C4: GetTitle returns the fixed fallback label when the DisplayName
setting is missing or empty, and the persisted DisplayName value
otherwise. -/
theorem getTitle_display_name_fallback (reg : RegState) :
    ((reg.values "DisplayName" = none ∨ reg.values "DisplayName" = some "") →
      GetTitle reg = (S_OK, some "Edit with Bascanka")) ∧
    (∀ s : String, reg.values "DisplayName" = some s → s ≠ "" →
      GetTitle reg = (S_OK, some s)) := by
  constructor
  · rintro (h | h) <;> simp [GetTitle, ReadRegString, h]
  · intro s hs hne
    simp [GetTitle, ReadRegString, hs, hne]

/-- Witness for C4: the fallback on an entirely unset configuration, and
the persisted value when DisplayName is set. -/
theorem getTitle_display_name_fallback_witness :
    GetTitle ⟨fun _ => none⟩ = (S_OK, some "Edit with Bascanka") ∧
    GetTitle ⟨fun n => if n = "DisplayName" then some "My Label" else none⟩ =
      (S_OK, some "My Label") :=
  ⟨(getTitle_display_name_fallback ⟨fun _ => none⟩).1 (Or.inl rfl),
   (getTitle_display_name_fallback _).2 "My Label" (by decide) (by decide)⟩

/-- C5: when IconPath is missing or empty but ExePath is set, GetIcon
returns the executable path with default icon index 0 appended; when both
are missing or empty, it sets the output to null and returns the
non-success code E_NOTIMPL. -/
theorem getIcon_fallback_or_omitted (reg : RegState) :
    ((reg.values "IconPath" = none ∨ reg.values "IconPath" = some "") →
      ∀ e : String, reg.values "ExePath" = some e → e ≠ "" →
        GetIcon reg = (S_OK, some (e ++ ",0"))) ∧
    ((reg.values "IconPath" = none ∨ reg.values "IconPath" = some "") →
      (reg.values "ExePath" = none ∨ reg.values "ExePath" = some "") →
      GetIcon reg = (E_NOTIMPL, none) ∧ FAILED E_NOTIMPL) := by
  constructor
  · intro hi e he hne
    have harg := append_ne_empty_right e ",0" (by decide)
    rcases hi with h | h <;>
      simp [GetIcon, ReadRegString, h, he, hne, harg]
  · intro hi he
    refine ⟨?_, by decide⟩
    rcases hi with h | h <;> rcases he with h2 | h2 <;>
      simp [GetIcon, ReadRegString, h, h2]

/-- Witness for C5: the ExePath fallback, and the omitted icon when both
settings are unset. -/
theorem getIcon_fallback_or_omitted_witness :
    GetIcon ⟨fun n => if n = "ExePath" then some "C:\\App\\app.exe" else none⟩ =
      (S_OK, some ("C:\\App\\app.exe" ++ ",0")) ∧
    (GetIcon ⟨fun _ => none⟩ = (E_NOTIMPL, none) ∧ FAILED E_NOTIMPL) :=
  ⟨(getIcon_fallback_or_omitted _).1 (Or.inl (by decide)) "C:\\App\\app.exe"
      (by decide) (by decide),
   (getIcon_fallback_or_omitted ⟨fun _ => none⟩).2 (Or.inl rfl) (Or.inl rfl)⟩

/-- C8: GetState stores ECS_ENABLED and returns success for every
selection (a null one included) and every fOkToBeSlow flag, and GetFlags
always stores ECF_DEFAULT with success. -/
theorem getState_always_enabled :
    (∀ (sel : Option Selection) (fOkToBeSlow : Bool),
      GetState sel fOkToBeSlow = (S_OK, ECS_ENABLED) ∧
      SUCCEEDED (GetState sel fOkToBeSlow).1) ∧
    (GetFlags = (S_OK, ECF_DEFAULT) ∧ SUCCEEDED GetFlags.1) := by
  refine ⟨fun sel f => ⟨rfl, ?_⟩, rfl, ?_⟩ <;>
    · show (0 : Nat) < 0x80000000
      decide

/-- A path enclosed in double quotes, as the loop body appends it. -/
def quoteArg (p : String) : String := "\"" ++ p ++ "\""

/-- Statement-side form of the argument list: each path enclosed in double
quotes and consecutive paths separated by a single space, in order. -/
def joinQuoted : List String → String
  | [] => ""
  | [p] => quoteArg p
  | p :: q :: t => quoteArg p ++ " " ++ joinQuoted (q :: t)

/-- Tail form of the argument list: each quoted path preceded by its
single separating space. -/
def joinTail : List String → String
  | [] => ""
  | p :: t => " " ++ quoteArg p ++ joinTail t

/-- The file-system paths Invoke's loop successfully obtains, in selection
order. -/
def selectedPaths (s : Selection) : List String :=
  (fetchedPaths s).filterMap id

/-- Prepending to a non-empty string yields a non-empty string. -/
lemma append_ne_empty_left (s t : String) (h : s ≠ "") : s ++ t ≠ "" := by
  rw [Ne, str_eq_empty_iff, String.data_append]
  rw [Ne, str_eq_empty_iff] at h
  simp [h]

/-- A quoted path is never the empty string. -/
lemma quoteArg_ne_empty (p : String) : quoteArg p ≠ "" := by
  unfold quoteArg
  exact append_ne_empty_right _ _ (by decide)

/-- One append step always leaves a non-empty accumulator. -/
lemma appendArg_ne_empty (args p : String) : appendArg args p ≠ "" := by
  unfold appendArg
  exact append_ne_empty_right _ _ (by decide)

/-- On a non-empty accumulator, one append step adds a space and the
quoted path. -/
lemma appendArg_eq (args p : String) (h : args ≠ "") :
    appendArg args p = args ++ (" " ++ quoteArg p) := by
  simp only [appendArg, quoteArg, if_neg h, String.append_assoc]

/-- On the empty accumulator, one append step produces just the quoted
path. -/
lemma appendArg_empty (p : String) : appendArg "" p = quoteArg p := by
  simp [appendArg, quoteArg, String.empty_append]

/-- The quoted-and-spaced list decomposes as head plus tail form. -/
lemma joinQuoted_cons (p : String) (t : List String) :
    joinQuoted (p :: t) = quoteArg p ++ joinTail t := by
  induction t generalizing p with
  | nil => simp [joinQuoted, joinTail, String.append_empty]
  | cons q u ih =>
      show quoteArg p ++ " " ++ joinQuoted (q :: u) = _
      rw [ih q]
      show _ = quoteArg p ++ (" " ++ quoteArg q ++ joinTail u)
      simp [String.append_assoc]

/-- Folding the loop body over the remaining items appends the tail form
of the remaining paths to a non-empty accumulator. -/
lemma foldl_argStep_ne_empty (l : List (Option String)) (args : String)
    (h : args ≠ "") :
    l.foldl argStep args = args ++ joinTail (l.filterMap id) := by
  induction l generalizing args with
  | nil => simp [joinTail, String.append_empty]
  | cons o t ih =>
      cases o with
      | none => simpa [argStep] using ih args h
      | some p =>
          rw [List.foldl_cons]
          show List.foldl argStep (appendArg args p) t = _
          rw [ih (appendArg args p) (appendArg_ne_empty args p),
            appendArg_eq args p h]
          simp [joinTail, String.append_assoc]

/-- Folding the loop body from the empty accumulator builds exactly the
quoted, single-space-separated list of the yielded paths. -/
lemma foldl_argStep_empty (l : List (Option String)) :
    l.foldl argStep "" = joinQuoted (l.filterMap id) := by
  induction l with
  | nil => rfl
  | cons o t ih =>
      cases o with
      | none => simpa [argStep] using ih
      | some p =>
          rw [List.foldl_cons]
          show List.foldl argStep (appendArg "" p) t = _
          rw [appendArg_empty,
            foldl_argStep_ne_empty t (quoteArg p) (quoteArg_ne_empty p)]
          rw [show (some p :: t).filterMap id = p :: t.filterMap id from by simp]
          rw [joinQuoted_cons]

/-- The argument string Invoke builds is the quoted, single-space-separated
concatenation of the paths the items yield, in selection order; items that
yield no path contribute nothing. -/
lemma buildArgs_eq_joinQuoted (s : Selection) :
    buildArgs s = joinQuoted (selectedPaths s) :=
  foldl_argStep_empty (fetchedPaths s)

/-- The quoted list of at least one path is never the empty string. -/
lemma joinQuoted_ne_empty (p : String) (t : List String) :
    joinQuoted (p :: t) ≠ "" := by
  rw [joinQuoted_cons]
  exact append_ne_empty_left _ _ (quoteArg_ne_empty p)

/-- Filtering the identity over a list of defined options keeps its
length. -/
lemma filterMap_id_length {α : Type} (l : List (Option α))
    (h : ∀ x ∈ l, x.isSome) : (l.filterMap id).length = l.length := by
  induction l with
  | nil => rfl
  | cons o t ih =>
      cases o with
      | none => exact absurd (h none (by simp)) (by simp)
      | some p =>
          have ht := ih fun x hx => h x (by simp [hx])
          simp [ht]

/-- When every selected item yields a path, the yielded paths are as many
as the selection count. -/
lemma selectedPaths_length (s : Selection)
    (hall : ∀ i, i < s.count → (itemPath (s.items i)).isSome) :
    (selectedPaths s).length = s.count := by
  have h2 : ∀ x ∈ fetchedPaths s, x.isSome := by
    intro x hx
    simp only [fetchedPaths, List.mem_map, List.mem_range] at hx
    obtain ⟨i, hi, rfl⟩ := hx
    exact hall i hi
  calc (selectedPaths s).length = (fetchedPaths s).length :=
        filterMap_id_length _ h2
    _ = s.count := by simp [fetchedPaths]

/-- A nonzero Win32 error code maps to a failing HRESULT. -/
lemma failed_hresult_from_win32 (err : Nat) (h : err ≠ 0) :
    FAILED (HRESULT_FROM_WIN32 err) := by
  show (0x80000000 : Nat) ≤ HRESULT_FROM_WIN32 err
  unfold HRESULT_FROM_WIN32
  rw [if_neg h]
  omega

/-- A successful GetCount with a nonzero count passes the early-return
test of Invoke. -/
lemma not_failed_or_zero (s : Selection) (hhr : s.countHr = S_OK)
    (hcnt : s.count ≠ 0) : ¬ (FAILED s.countHr ∨ s.count = 0) := by
  rw [hhr]
  rintro (h | h)
  · exact absurd h (by decide)
  · exact hcnt h

/-- C3: with a configured executable path and a non-empty selection all of
whose items yield file-system paths, Invoke issues exactly one launch
request, whose executable is the configured path and whose argument string
is every selected path enclosed in double quotes, consecutive paths
separated by a single space, in selection order. -/
theorem invoke_single_quoted_launch (reg : RegState) (s : Selection)
    (launchErr : Option Nat)
    (hexe : ReadRegString reg "ExePath" ≠ "")
    (hhr : s.countHr = S_OK) (hcnt : 1 ≤ s.count)
    (hall : ∀ i, i < s.count → (itemPath (s.items i)).isSome) :
    (Invoke reg (some s) launchErr).2 =
      [⟨ReadRegString reg "ExePath", joinQuoted (selectedPaths s)⟩] ∧
    (selectedPaths s).length = s.count := by
  have hlen := selectedPaths_length s hall
  have hne : selectedPaths s ≠ [] := by
    intro h
    rw [h] at hlen
    simp at hlen
    omega
  have hargs2 : joinQuoted (selectedPaths s) ≠ "" := by
    cases hsel : selectedPaths s with
    | nil => exact absurd hsel hne
    | cons p t => exact joinQuoted_ne_empty p t
  have hnf := not_failed_or_zero s hhr (by omega)
  refine ⟨?_, hlen⟩
  cases launchErr <;>
    simp [Invoke, hexe, hnf, hargs2, buildArgs_eq_joinQuoted]

/-- Witness configuration for C3: only ExePath is set. -/
def regC3 : RegState :=
  ⟨fun n => if n = "ExePath" then some "C:\\app.exe" else none⟩

/-- Witness selection for C3: two items, each yielding a path. -/
def selC3 : Selection :=
  ⟨S_OK, 2, fun i => if i = 0 then .item (some "a.txt") else .item (some "b.txt")⟩

/-- Witness for C3 at a two-file selection with a configured executable. -/
theorem invoke_single_quoted_launch_witness :
    (ReadRegString regC3 "ExePath" ≠ "" ∧ selC3.countHr = S_OK ∧
      1 ≤ selC3.count ∧
      ∀ i, i < selC3.count → (itemPath (selC3.items i)).isSome) ∧
    ((Invoke regC3 (some selC3) none).2 =
        [⟨ReadRegString regC3 "ExePath", joinQuoted (selectedPaths selC3)⟩] ∧
      (selectedPaths selC3).length = selC3.count) :=
  ⟨⟨by decide, rfl, by decide, by decide⟩,
   invoke_single_quoted_launch regC3 selC3 none (by decide) rfl (by decide)
     (by decide)⟩

/-- C1: at a configuration with ExePath set and a non-null selection whose
GetCount succeeds with zero items, Invoke returns the hr of GetCount,
which is the success code S_OK, and launches nothing; the specified
failure status for an empty selection is not produced. -/
theorem invoke_empty_selection_returns_success :
    Invoke ⟨fun n => if n = "ExePath" then some "C:\\App\\app.exe" else none⟩
        (some ⟨S_OK, 0, fun _ => .fetchFail⟩) none = (S_OK, []) ∧
    ¬ FAILED S_OK := by
  constructor
  · decide
  · decide

/-- C6: with the executable-path setting missing or empty Invoke fails
without issuing any launch request; and when the launch call itself fails
with a nonzero OS error code, Invoke returns the failing HRESULT derived
from that error, having issued exactly one launch request, never a
second. -/
theorem invoke_failure_statuses (reg : RegState) (s : Selection) (err : Nat)
    (hexe : ReadRegString reg "ExePath" ≠ "") (hhr : s.countHr = S_OK)
    (hcnt : s.count ≠ 0) (hargs : buildArgs s ≠ "") (herr : err ≠ 0) :
    (∀ (r : RegState) (sel : Option Selection) (e : Option Nat),
        ReadRegString r "ExePath" = "" →
        FAILED (Invoke r sel e).1 ∧ (Invoke r sel e).2 = []) ∧
    (Invoke reg (some s) (some err) =
        (HRESULT_FROM_WIN32 err, [⟨ReadRegString reg "ExePath", buildArgs s⟩]) ∧
      FAILED (HRESULT_FROM_WIN32 err)) := by
  constructor
  · intro r sel e h
    cases sel with
    | none =>
        constructor
        · show FAILED E_INVALIDARG
          decide
        · rfl
    | some s2 =>
        rw [show Invoke r (some s2) e = (E_FAIL, []) from by simp [Invoke, h]]
        constructor
        · decide
        · rfl
  · have hnf := not_failed_or_zero s hhr hcnt
    refine ⟨?_, failed_hresult_from_win32 err herr⟩
    simp [Invoke, hexe, hnf, hargs]

/-- Witness configuration for C6: only ExePath is set. -/
def regC6 : RegState :=
  ⟨fun n => if n = "ExePath" then some "C:\\app.exe" else none⟩

/-- Witness selection for C6: one item yielding one path. -/
def selC6 : Selection := ⟨S_OK, 1, fun _ => .item (some "a.txt")⟩

/-- Witness for C6 with launch error code 2 (file not found). -/
theorem invoke_failure_statuses_witness :
    (ReadRegString regC6 "ExePath" ≠ "" ∧ selC6.countHr = S_OK ∧
      selC6.count ≠ 0 ∧ buildArgs selC6 ≠ "" ∧ (2 : Nat) ≠ 0) ∧
    ((∀ (r : RegState) (sel : Option Selection) (e : Option Nat),
        ReadRegString r "ExePath" = "" →
        FAILED (Invoke r sel e).1 ∧ (Invoke r sel e).2 = []) ∧
      (Invoke regC6 (some selC6) (some 2) =
          (HRESULT_FROM_WIN32 2, [⟨ReadRegString regC6 "ExePath", buildArgs selC6⟩]) ∧
        FAILED (HRESULT_FROM_WIN32 2))) :=
  ⟨⟨by decide, rfl, by decide, by decide, by decide⟩,
   invoke_failure_statuses regC6 selC6 2 (by decide) rfl (by decide) (by decide)
     (by decide)⟩

/-- C10: a null selection makes Invoke return E_INVALIDARG with no launch;
items that fail to yield a file-system path contribute nothing to the
argument string; and a non-empty selection none of whose items yields a
path makes Invoke return E_FAIL with no launch. -/
theorem invoke_null_and_pathless_selection (reg : RegState) (s : Selection)
    (e : Option Nat) (hhr : s.countHr = S_OK) (hcnt : 1 ≤ s.count)
    (hall : ∀ i, i < s.count → itemPath (s.items i) = none) :
    (∀ (r : RegState) (e2 : Option Nat), Invoke r none e2 = (E_INVALIDARG, [])) ∧
    (∀ s2 : Selection, buildArgs s2 = joinQuoted (selectedPaths s2)) ∧
    Invoke reg (some s) e = (E_FAIL, []) := by
  refine ⟨fun r e2 => rfl, buildArgs_eq_joinQuoted, ?_⟩
  have hsel : selectedPaths s = [] := by
    simp only [selectedPaths, List.filterMap_eq_nil_iff, fetchedPaths,
      List.mem_map, List.mem_range, id]
    rintro x ⟨i, hi, rfl⟩
    exact hall i hi
  have hargs : buildArgs s = "" := by
    rw [buildArgs_eq_joinQuoted, hsel]
    rfl
  by_cases hexe : ReadRegString reg "ExePath" = ""
  · simp [Invoke, hexe]
  · have hnf := not_failed_or_zero s hhr (by omega)
    simp [Invoke, hexe, hnf, hargs]

/-- Witness configuration for C10: only ExePath is set. -/
def regC10 : RegState :=
  ⟨fun n => if n = "ExePath" then some "C:\\app.exe" else none⟩

/-- Witness selection for C10: one item that fails to yield a path. -/
def selC10 : Selection := ⟨S_OK, 1, fun _ => .fetchFail⟩

/-- Witness for C10 at a one-item selection yielding no path. -/
theorem invoke_null_and_pathless_selection_witness :
    (selC10.countHr = S_OK ∧ 1 ≤ selC10.count ∧
      ∀ i, i < selC10.count → itemPath (selC10.items i) = none) ∧
    ((∀ (r : RegState) (e2 : Option Nat),
        Invoke r none e2 = (E_INVALIDARG, [])) ∧
      (∀ s2 : Selection, buildArgs s2 = joinQuoted (selectedPaths s2)) ∧
      Invoke regC10 (some selC10) none = (E_FAIL, [])) :=
  ⟨⟨rfl, by decide, by decide⟩,
   invoke_null_and_pathless_selection regC10 selC10 none rfl (by decide)
     (by decide)⟩

/-- An acquire or release call of the host ownership protocol. -/
inductive RefOp
  | addRef
  | release
  deriving DecidableEq

/-- Lifetime state of one COM object: the reference counter (the LONG
m_refCount; 32-bit wraparound beyond two billion simultaneous references
is not modelled) and whether `delete this` has run. -/
structure RefState where
  count : Int
  destroyed : Bool

/-- Construction-time state: BascankaCommand's constructor
(BascankaCommand.cpp 11-13) starts m_refCount at 1, as does ClassFactory's
(ClassFactory.cpp 6-9). -/
def initialRefState : RefState := ⟨1, false⟩

/-- BascankaCommand::AddRef (BascankaCommand.cpp 33-36):
InterlockedIncrement on the counter, returning the new count.
ClassFactory::AddRef (ClassFactory.cpp 29-32) is identical. -/
def AddRef (s : RefState) : RefState × Int :=
  (⟨s.count + 1, s.destroyed⟩, s.count + 1)

/-- BascankaCommand::Release (BascankaCommand.cpp 38-46):
InterlockedDecrement on the counter, `delete this` exactly when the
decremented count is zero, returning the decremented count.
ClassFactory::Release (ClassFactory.cpp 34-43) has the same counter and
deletion behaviour, additionally decrementing g_dllRefCount on deletion. -/
def Release (s : RefState) : RefState × Int :=
  (⟨s.count - 1, s.destroyed || decide (s.count - 1 = 0)⟩, s.count - 1)

/-- One acquire or release applied to the object state. -/
def refStep (s : RefState) : RefOp → RefState
  | .addRef => (AddRef s).1
  | .release => (Release s).1

/-- The object state after a sequence of acquire and release calls. -/
def runRefOps (s : RefState) : List RefOp → RefState
  | [] => s
  | op :: ops => runRefOps (refStep s op) ops

/-- The counts the Interlocked calls return along a run that starts at
current count c. -/
def countTrace (c : Int) : List RefOp → List Int
  | [] => []
  | .addRef :: ops => (c + 1) :: countTrace (c + 1) ops
  | .release :: ops => (c - 1) :: countTrace (c - 1) ops

/-- A call sequence starting at current count c is symmetric when every
release is matched by a prior AddRef or by the references already counted:
before each release the count is at least one. -/
def balancedFrom (c : Int) : List RefOp → Bool
  | [] => true
  | .addRef :: ops => balancedFrom (c + 1) ops
  | .release :: ops => decide (1 ≤ c) && balancedFrom (c - 1) ops

/-- Lifetime state of one ClassFactory object together with the module
count g_dllRefCount its Release maintains (ClassFactory.cpp 4, 34-43). -/
structure FactoryState where
  refCount : Int
  dllRefCount : Int
  destroyed : Bool

/-- One acquire or release applied to a factory object
(ClassFactory.cpp 29-43). -/
def factoryStep (s : FactoryState) : RefOp → FactoryState
  | .addRef => ⟨s.refCount + 1, s.dllRefCount, s.destroyed⟩
  | .release =>
      ⟨s.refCount - 1,
        if s.refCount - 1 = 0 then s.dllRefCount - 1 else s.dllRefCount,
        s.destroyed || decide (s.refCount - 1 = 0)⟩

/-- The factory state after a sequence of acquire and release calls. -/
def runFactoryOps (s : FactoryState) : List RefOp → FactoryState
  | [] => s
  | op :: ops => runFactoryOps (factoryStep s op) ops

/-- The factory's counter and destruction flag evolve exactly as the
shared object model's do, whatever the module count. -/
lemma runFactoryOps_proj (ops : List RefOp) :
    ∀ (c g : Int) (d : Bool),
      (runFactoryOps ⟨c, g, d⟩ ops).refCount = (runRefOps ⟨c, d⟩ ops).count ∧
      (runFactoryOps ⟨c, g, d⟩ ops).destroyed = (runRefOps ⟨c, d⟩ ops).destroyed := by
  induction ops with
  | nil => intro c g d; exact ⟨rfl, rfl⟩
  | cons op t ih =>
      intro c g d
      cases op with
      | addRef => exact ih (c + 1) g d
      | release =>
          exact ih (c - 1) (if c - 1 = 0 then g - 1 else g)
            (d || decide (c - 1 = 0))

/-- Along a symmetric call sequence from a non-negative count, every count
an Interlocked call returns is non-negative. -/
lemma countTrace_nonneg (ops : List RefOp) :
    ∀ c : Int, balancedFrom c ops = true → 0 ≤ c →
      ∀ x ∈ countTrace c ops, 0 ≤ x := by
  induction ops with
  | nil => intro c _ _ x hx; simp [countTrace] at hx
  | cons op t ih =>
      intro c hb hc x hx
      cases op with
      | addRef =>
          rw [show countTrace c (.addRef :: t) = (c + 1) :: countTrace (c + 1) t
            from rfl] at hx
          rw [show balancedFrom c (.addRef :: t) = balancedFrom (c + 1) t
            from rfl] at hb
          rcases List.mem_cons.mp hx with h | h
          · omega
          · exact ih (c + 1) hb (by omega) x h
      | release =>
          rw [show countTrace c (.release :: t) = (c - 1) :: countTrace (c - 1) t
            from rfl] at hx
          rw [show balancedFrom c (.release :: t) =
            (decide (1 ≤ c) && balancedFrom (c - 1) t) from rfl] at hb
          rw [Bool.and_eq_true, decide_eq_true_eq] at hb
          obtain ⟨h1, h2⟩ := hb
          rcases List.mem_cons.mp hx with h | h
          · omega
          · exact ih (c - 1) h2 (by omega) x h

/-- Along a symmetric call sequence from a non-negative count, the
destruction flag is set exactly when some Interlocked decrement returned
zero. -/
lemma destroyed_eq (ops : List RefOp) :
    ∀ (c : Int) (d : Bool), balancedFrom c ops = true → 0 ≤ c →
      (runRefOps ⟨c, d⟩ ops).destroyed =
        (d || decide ((0 : Int) ∈ countTrace c ops)) := by
  induction ops with
  | nil => intro c d _ _; simp [runRefOps, countTrace]
  | cons op t ih =>
      intro c d hb hc
      cases op with
      | addRef =>
          rw [show runRefOps ⟨c, d⟩ (.addRef :: t) = runRefOps ⟨c + 1, d⟩ t
            from rfl]
          rw [show countTrace c (.addRef :: t) = (c + 1) :: countTrace (c + 1) t
            from rfl]
          rw [show balancedFrom c (.addRef :: t) = balancedFrom (c + 1) t
            from rfl] at hb
          rw [ih (c + 1) d hb (by omega)]
          have hne : ¬ ((0 : Int) = c + 1) := by omega
          simp [List.mem_cons, hne]
      | release =>
          rw [show runRefOps ⟨c, d⟩ (.release :: t) =
            runRefOps ⟨c - 1, d || decide (c - 1 = 0)⟩ t from rfl]
          rw [show countTrace c (.release :: t) = (c - 1) :: countTrace (c - 1) t
            from rfl]
          rw [show balancedFrom c (.release :: t) =
            (decide (1 ≤ c) && balancedFrom (c - 1) t) from rfl] at hb
          rw [Bool.and_eq_true, decide_eq_true_eq] at hb
          obtain ⟨h1, h2⟩ := hb
          rw [ih (c - 1) (d || decide (c - 1 = 0)) h2 (by omega)]
          by_cases hz : c - 1 = 0 <;>
            by_cases hmem : (0 : Int) ∈ countTrace (c - 1) t <;>
              (simp [List.mem_cons, hz, hmem, Bool.or_assoc, eq_comm];
                try exact fun h => absurd h.symm hz)

/-- C7: along any sequence of acquire and release calls in which each
release is matched by a prior AddRef or by the construction-time initial
reference, the reference count of a command object, and likewise of a
factory object, never reaches a negative value, and the object is
destroyed exactly when its count reaches zero. -/
theorem refcount_never_negative (ops : List RefOp)
    (h : balancedFrom 1 ops = true) :
    (∀ x ∈ countTrace 1 ops, 0 ≤ x) ∧
    ((runRefOps initialRefState ops).destroyed = true ↔
      (0 : Int) ∈ countTrace 1 ops) ∧
    ((runFactoryOps ⟨1, 1, false⟩ ops).destroyed = true ↔
      (0 : Int) ∈ countTrace 1 ops) := by
  have h1 := countTrace_nonneg ops 1 h (by omega)
  have h2 := destroyed_eq ops 1 false h (by omega)
  refine ⟨h1, ?_, ?_⟩
  · rw [show initialRefState = (⟨1, false⟩ : RefState) from rfl, h2]
    simp
  · rw [(runFactoryOps_proj ops 1 1 false).2, h2]
    simp

/-- Witness for C7: one acquire followed by two releases; the counts are
2, 1, 0, no count is negative, and the object is destroyed. -/
theorem refcount_never_negative_witness :
    balancedFrom 1 [RefOp.addRef, RefOp.release, RefOp.release] = true ∧
    ((∀ x ∈ countTrace 1 [RefOp.addRef, RefOp.release, RefOp.release], 0 ≤ x) ∧
      ((runRefOps initialRefState
          [RefOp.addRef, RefOp.release, RefOp.release]).destroyed = true ↔
        (0 : Int) ∈ countTrace 1 [RefOp.addRef, RefOp.release, RefOp.release]) ∧
      ((runFactoryOps ⟨1, 1, false⟩
          [RefOp.addRef, RefOp.release, RefOp.release]).destroyed = true ↔
        (0 : Int) ∈ countTrace 1 [RefOp.addRef, RefOp.release, RefOp.release])) :=
  ⟨by decide, refcount_never_negative _ (by decide)⟩

/-- Interface identifiers the component distinguishes in QueryInterface
calls: IID_IUnknown, IID_IClassFactory, IID_IExplorerCommand, and anything
else. -/
inductive Iid
  | iUnknown
  | iClassFactory
  | iExplorerCommand
  | otherIid
  deriving DecidableEq

/-- A CLSID, modelled abstractly as a number; 0 stands for the
zero-initialized CLSID that g_CLSID_BascankaCommand holds before a
successful registry read (dllmain.cpp 11). -/
abbrev Clsid := Nat

/-- Outcome of ReadCLSIDFromRegistry (dllmain.cpp 15-38) at the moment of
one call: `some c` when the key opens, the CLSID value is REG_SZ, and
CLSIDFromString parses it to c; `none` when any of those steps fails, in
which case g_CLSID_BascankaCommand is left unchanged. -/
structure DllEnv where
  clsidReadResult : Option Clsid

/-- The component identifier DllGetClassObject compares against
(dllmain.cpp 64-68): the loaded g_CLSID_BascankaCommand, re-read from the
registry when it is still the zero CLSID. -/
def effectiveClsid (gClsid : Clsid) (env : DllEnv) : Clsid :=
  if gClsid = 0 then
    match env.clsidReadResult with
    | some c => c
    | none => gClsid
  else gClsid

/-- A COM object pointer stored through a ppv output. -/
inductive ComPtr
  | factoryPtr
  | commandPtr
  deriving DecidableEq

/-- Result of an object-creating entry point: the HRESULT, the object
stored through ppv (none models a null output), and whether a
BascankaCommand object was constructed during the call. -/
structure CreateResult where
  hr : HResult
  obj : Option ComPtr
  commandConstructed : Bool
  deriving DecidableEq

namespace BascankaCommand

/-- BascankaCommand::QueryInterface (BascankaCommand.cpp 17-31) with a
non-null output: IUnknown and IExplorerCommand are served with S_OK, any
other interface gets E_NOINTERFACE with a null output. -/
def QueryInterface (riid : Iid) : HResult × Option ComPtr :=
  if riid = .iUnknown ∨ riid = .iExplorerCommand then (S_OK, some .commandPtr)
  else (E_NOINTERFACE, none)

end BascankaCommand

namespace ClassFactory

/-- ClassFactory::QueryInterface (ClassFactory.cpp 13-27) with a non-null
output: IUnknown and IClassFactory are served with S_OK, any other
interface gets E_NOINTERFACE with a null output. -/
def QueryInterface (riid : Iid) : HResult × Option ComPtr :=
  if riid = .iUnknown ∨ riid = .iClassFactory then (S_OK, some .factoryPtr)
  else (E_NOINTERFACE, none)

/-- ClassFactory::CreateInstance (ClassFactory.cpp 47-59): a non-null
aggregation outer pointer is rejected with CLASS_E_NOAGGREGATION before
any BascankaCommand is constructed; otherwise a command object is
constructed and queried for riid, and the construction reference is
released. Allocation failure (E_OUTOFMEMORY) is not modelled. -/
def CreateInstance (outerNonNull : Bool) (riid : Iid) : CreateResult :=
  if outerNonNull then ⟨CLASS_E_NOAGGREGATION, none, false⟩
  else
    let q := BascankaCommand.QueryInterface riid
    ⟨q.1, q.2, true⟩

end ClassFactory

/-- DllGetClassObject (dllmain.cpp 57-82): a null output pointer gets
E_POINTER; otherwise the output is first set to null, the CLSID is re-read
when still zero, a class identifier other than the effective one is
rejected with CLASS_E_CLASSNOTAVAILABLE, and otherwise a ClassFactory is
constructed and queried for riid. Allocation failure (E_OUTOFMEMORY) is
not modelled. -/
def DllGetClassObject (gClsid : Clsid) (env : DllEnv) (rclsid : Clsid)
    (riid : Iid) (ppvNonNull : Bool) : HResult × Option ComPtr :=
  if ¬ ppvNonNull then (E_POINTER, none)
  else if rclsid ≠ effectiveClsid gClsid env then
    (CLASS_E_CLASSNOTAVAILABLE, none)
  else ClassFactory.QueryInterface riid

/-- C9: with a non-null output pointer and a class identifier different
from the currently loaded (possibly just re-read) component identifier,
DllGetClassObject returns CLASS_E_CLASSNOTAVAILABLE and leaves the output
set to null; and CreateInstance with a non-null aggregation outer pointer
returns CLASS_E_NOAGGREGATION without constructing a command object. -/
theorem dll_class_object_rejections (gClsid : Clsid) (env : DllEnv)
    (rclsid : Clsid) (riid : Iid)
    (h : rclsid ≠ effectiveClsid gClsid env) :
    DllGetClassObject gClsid env rclsid riid true =
      (CLASS_E_CLASSNOTAVAILABLE, none) ∧
    (∀ riid2 : Iid, ClassFactory.CreateInstance true riid2 =
      ⟨CLASS_E_NOAGGREGATION, none, false⟩) := by
  constructor
  · simp [DllGetClassObject, h]
  · intro riid2
    rfl

/-- Witness for C9: loaded identifier 5, no registry re-read, requested
class identifier 3. -/
theorem dll_class_object_rejections_witness :
    ((3 : Clsid) ≠ effectiveClsid 5 ⟨none⟩) ∧
    (DllGetClassObject 5 ⟨none⟩ 3 Iid.iClassFactory true =
        (CLASS_E_CLASSNOTAVAILABLE, none) ∧
      ∀ riid2 : Iid, ClassFactory.CreateInstance true riid2 =
        ⟨CLASS_E_NOAGGREGATION, none, false⟩) :=
  ⟨by decide,
   dll_class_object_rejections 5 ⟨none⟩ 3 Iid.iClassFactory (by decide)⟩

/-- One run of the component around one host call: the persisted
configuration as it stood when the dll was loaded, and as it stands at the
moment of the call. -/
structure ComponentRun where
  loadConfig : RegState
  callConfig : RegState

/-- Counterexample to C2: two runs whose persisted configuration agrees at
load time (everything unset) but diverges before a later GetTitle call;
ReadRegString queries the registry on every call, so the two GetTitle
results differ. -/
theorem config_not_latched_counterexample :
    (ComponentRun.mk ⟨fun _ => none⟩ ⟨fun _ => none⟩).loadConfig =
      (ComponentRun.mk ⟨fun _ => none⟩
        ⟨fun n => if n = "DisplayName" then some "Changed" else none⟩).loadConfig ∧
    GetTitle (ComponentRun.mk ⟨fun _ => none⟩ ⟨fun _ => none⟩).callConfig ≠
      GetTitle (ComponentRun.mk ⟨fun _ => none⟩
        ⟨fun n => if n = "DisplayName" then some "Changed" else none⟩).callConfig :=
  ⟨rfl, by decide⟩

/-- C2 as amended: only the component identifier is read once, at load
time; the display label, executable path and icon path are re-read from
the persisted configuration on every call, so GetTitle, GetIcon and Invoke
are determined by the configuration at call time: two calls whose
call-time configurations agree on those three values produce identical
results, whatever the load-time configurations were. -/
theorem config_read_per_call (r1 r2 : ComponentRun)
    (hd : r1.callConfig.values "DisplayName" = r2.callConfig.values "DisplayName")
    (he : r1.callConfig.values "ExePath" = r2.callConfig.values "ExePath")
    (hi : r1.callConfig.values "IconPath" = r2.callConfig.values "IconPath") :
    GetTitle r1.callConfig = GetTitle r2.callConfig ∧
    GetIcon r1.callConfig = GetIcon r2.callConfig ∧
    ∀ (sel : Option Selection) (e : Option Nat),
      Invoke r1.callConfig sel e = Invoke r2.callConfig sel e := by
  have hrd : ReadRegString r1.callConfig "DisplayName" =
      ReadRegString r2.callConfig "DisplayName" := by
    simp [ReadRegString, hd]
  have hre : ReadRegString r1.callConfig "ExePath" =
      ReadRegString r2.callConfig "ExePath" := by
    simp [ReadRegString, he]
  have hri : ReadRegString r1.callConfig "IconPath" =
      ReadRegString r2.callConfig "IconPath" := by
    simp [ReadRegString, hi]
  refine ⟨?_, ?_, ?_⟩
  · simp [GetTitle, hrd]
  · simp [GetIcon, hri, hre]
  · intro sel e
    cases sel with
    | none => rfl
    | some s => simp [Invoke, hre]

/-- Call-time configuration shared by the two runs of the C2 witness. -/
def cfgC2 : RegState := ⟨fun n => if n = "DisplayName" then some "X" else none⟩

/-- First C2 witness run: empty load-time configuration. -/
def runC2a : ComponentRun := ⟨⟨fun _ => none⟩, cfgC2⟩

/-- Second C2 witness run: a different load-time configuration, the same
call-time configuration. -/
def runC2b : ComponentRun :=
  ⟨⟨fun n => if n = "DisplayName" then some "Old" else none⟩, cfgC2⟩

/-- Witness for the amended C2 at two runs that differ at load time but
agree at call time. -/
theorem config_read_per_call_witness :
    (runC2a.callConfig.values "DisplayName" =
        runC2b.callConfig.values "DisplayName" ∧
      runC2a.callConfig.values "ExePath" = runC2b.callConfig.values "ExePath" ∧
      runC2a.callConfig.values "IconPath" = runC2b.callConfig.values "IconPath") ∧
    (GetTitle runC2a.callConfig = GetTitle runC2b.callConfig ∧
      GetIcon runC2a.callConfig = GetIcon runC2b.callConfig ∧
      ∀ (sel : Option Selection) (e : Option Nat),
        Invoke runC2a.callConfig sel e = Invoke runC2b.callConfig sel e) :=
  ⟨⟨rfl, rfl, rfl⟩, config_read_per_call runC2a runC2b rfl rfl rfl⟩
